import Mathlib

/-!
Verification of the MQTT request/response correlation layer in
`src/awsiot/iotjobs.py` (AWS IoT jobs client).

The development shallow-embeds the parts of the module the claims are about:

* the JSON-ish payload values exchanged on the wire (`PValue`, `Payload`),
  with Python truthiness (`PValue.truthy`), since every encode/decode guard
  in the source is a bare `if val:`;
* the generated request classes with their `to_payload` sparse encoders;
* the generated response/event classes with their `from_payload` decoders
  (fields that the source assigns without a type check are modelled as
  `Option PValue`, exactly as dynamically-typed Python stores them; fields
  passed through `datetime.datetime.fromtimestamp` are modelled as epoch
  seconds, since `fromtimestamp` raises on non-numeric input);
* the suback-counting gates of `_rpc_operation` and `_subscribe_operation`
  (a shared `on_suback` closure popping a sentinel list);
* the `on_response` closure of `_rpc_operation` over a model of
  `concurrent.futures.Future` (whose `set_result` / `set_exception` raise
  `InvalidStateError` when the future is already done);
* the `callback_wrapper` closure of `_subscribe_operation`;
* the streaming facades `get_job_executions_changed` and
  `get_next_job_execution_changed`.
-/

namespace IotJobs

/-! ## Wire payload values

A `json.loads` result: JSON maps, arrays, strings, integers, booleans and
null.  (JSON floats do not occur in any claim and are omitted.)  `Payload`
is a decoded JSON object in insertion order, the shape every `to_payload`
builds and every `from_payload` reads. -/

inductive PValue where
  | str (s : String)
  | int (n : Int)
  | bool (b : Bool)
  | dict (entries : List (String × PValue))
  | list (items : List PValue)
  | null

abbrev Payload := List (String × PValue)

/-- Python truthiness of a payload value, as tested by every `if val:` guard
in the source: empty string, zero, `False`, empty dict/list and `None` are
falsy. -/
def PValue.truthy : PValue → Bool
  | .str s => !(s == "")
  | .int n => !(n == 0)
  | .bool b => b
  | .dict es => !es.isEmpty
  | .list xs => !xs.isEmpty
  | .null => false

/-- Model of `payload.get(k)` on a decoded JSON object: the value of the
first entry with key `k`, or `None` when the key is absent. -/
def Payload.get : Payload → String → Option PValue
  | [], _ => none
  | (k', v) :: rest, k => if k' = k then some v else Payload.get rest k

/-- Model of the ubiquitous generated decode idiom
`val = payload.get(k)` followed by `if val:`: the value at `k` when it is
present and truthy, otherwise nothing. -/
def Payload.getTruthy (p : Payload) (k : String) : Option PValue :=
  match p.get k with
  | some v => if v.truthy then some v else none
  | none => none

/-- Model of an inbound MQTT message payload after `json.loads`:
`none` when the bytes are not valid JSON (so `json.loads` raised),
otherwise the parsed value. -/
abbrev JsonMsg := Option PValue

/-! ## Sparse encoders (`to_payload`)

Each generated `to_payload` is a straight-line sequence of
`if self.field: payload[key] = self.field` statements building a dict in
insertion order; it is modelled as the concatenation of one
singleton-or-empty segment per field, via one helper per field type.
Python truthiness specializes per annotated type: an `Optional[str]` is
truthy iff set and non-empty, an `Optional[int]` iff set and non-zero, an
`Optional[bool]` iff set and `True`, an `Optional[Dict[str,str]]` iff set
and non-empty. -/

def strEntry (k : String) : Option String → Payload
  | some s => if s = "" then [] else [(k, PValue.str s)]
  | none => []

def intEntry (k : String) : Option Int → Payload
  | some n => if n = 0 then [] else [(k, PValue.int n)]
  | none => []

def boolEntry (k : String) : Option Bool → Payload
  | some b => if b then [(k, PValue.bool b)] else []
  | none => []

def dictEntry (k : String) : Option (List (String × String)) → Payload
  | some d => if d.isEmpty then [] else [(k, PValue.dict (d.map fun kv => (kv.1, PValue.str kv.2)))]
  | none => []

/-- `DescribeJobExecutionRequest`: five independently optional fields,
all defaulting to `None`. -/
structure DescribeJobExecutionRequest where
  client_token : Option String := none
  execution_number : Option Int := none
  include_job_document : Option Bool := none
  job_id : Option String := none
  thing_name : Option String := none

/-- `DescribeJobExecutionRequest.to_payload`: emits `clientToken`,
`executionNumber` and `includeJobDocument` under truthiness guards; the
topic-only fields `job_id` and `thing_name` are never written to the
payload. -/
def DescribeJobExecutionRequest.to_payload (self : DescribeJobExecutionRequest) : Payload :=
  strEntry "clientToken" self.client_token
    ++ intEntry "executionNumber" self.execution_number
    ++ boolEntry "includeJobDocument" self.include_job_document

/-- `UpdateJobExecutionRequest`: nine independently optional fields,
all defaulting to `None`. -/
structure UpdateJobExecutionRequest where
  client_token : Option String := none
  execution_number : Option Int := none
  expected_version : Option Int := none
  include_job_document : Option Bool := none
  include_job_execution_state : Option Bool := none
  job_id : Option String := none
  status : Option String := none
  status_details : Option (List (String × String)) := none
  thing_name : Option String := none

/-- `UpdateJobExecutionRequest.to_payload`: emits the seven payload-carried
fields, in source order, under truthiness guards; `job_id` and `thing_name`
are topic-only and never written. -/
def UpdateJobExecutionRequest.to_payload (self : UpdateJobExecutionRequest) : Payload :=
  strEntry "clientToken" self.client_token
    ++ intEntry "executionNumber" self.execution_number
    ++ intEntry "expectedVersion" self.expected_version
    ++ boolEntry "includeJobDocument" self.include_job_document
    ++ boolEntry "includeJobExecutionState" self.include_job_execution_state
    ++ strEntry "status" self.status
    ++ dictEntry "statusDetails" self.status_details

/-! ## Suback-counting gates

`_rpc_operation` builds `suback_counter = ['suback'] * len(subscriptions)`
and registers ONE shared `on_suback` closure with every subscribe call; the
transport invokes it once per subscription acknowledgement (`packet_id` is
ignored), so a run of the gate is characterized by how many
acknowledgements have been delivered.  Each call pops one sentinel if the
list is non-empty and, exactly when the list becomes empty, publishes the
request.  `publish` is modelled as a counter increment (its possible
synchronous failure is routed by the source's `try/except` to
`future.set_exception`, which none of the ack-counting claims concern). -/

structure RpcGateState where
  suback_counter : List Unit
  publishCount : Nat

/-- One invocation of the `on_suback` closure of `_rpc_operation`:
`if suback_counter: suback_counter.pop(); if not suback_counter: publish`.
An invocation with the counter already empty is a no-op. -/
def rpcStep : RpcGateState → RpcGateState
  | ⟨[], n⟩ => ⟨[], n⟩
  | ⟨_ :: rest, n⟩ => ⟨rest, if rest.isEmpty then n + 1 else n⟩

/-- The rpc gate after `m` suback deliveries for an invocation with `k`
subscriptions. -/
def rpcRun (k : Nat) : Nat → RpcGateState
  | 0 => ⟨List.replicate k (), 0⟩
  | m + 1 => rpcStep (rpcRun k m)

/-! ## Decoders (`from_payload`)

The generated `from_payload` classmethods all follow one idiom per field:
`val = payload.get(key)` then `if val: new.field = val` — with no type
check, so the stored value is whatever truthy JSON value was present; such
fields are modelled as `Option PValue`.  The exceptions, which CAN raise:

* `payload.get` itself raises (`AttributeError` and the like) when the
  decoded JSON at that point is not an object — every `from_payload` fails
  on a non-dict argument;
* fields wrapped in `datetime.datetime.fromtimestamp(val)` raise
  (`TypeError`) when the truthy `val` is not numeric; they are modelled as
  epoch seconds `Option Int` (Python `bool` is numeric with `True == 1`,
  and only `True` passes the truthiness guard);
* nested-object fields recurse into another `from_payload`;
* list-of-object fields iterate `val` with a comprehension, which only
  succeeds when `val` is a JSON array of objects (iterating a truthy dict
  yields its string keys and a string yields characters, and the nested
  `from_payload` then raises on those non-dict elements).

`Except Unit` is the result: `.error ()` models a raised exception. -/

/-- Decode idiom for a `datetime.datetime.fromtimestamp` field. -/
def decodeTs (p : Payload) (k : String) : Except Unit (Option Int) :=
  match p.getTruthy k with
  | none => .ok none
  | some (.int n) => .ok (some n)
  | some (.bool _) => .ok (some 1)
  | some _ => .error ()

/-- `JobExecutionState`: status, statusDetails, versionNumber. -/
structure JobExecutionState where
  status : Option PValue := none
  status_details : Option PValue := none
  version_number : Option PValue := none

/-- `JobExecutionState.from_payload`. -/
def JobExecutionState.from_payload : PValue → Except Unit JobExecutionState
  | .dict es =>
    .ok { status := Payload.getTruthy es "status"
          status_details := Payload.getTruthy es "statusDetails"
          version_number := Payload.getTruthy es "versionNumber" }
  | _ => .error ()

/-- `RejectedError`, the payload class of every rejected-topic
subscription (an `Exception` subclass in the source). -/
structure RejectedError where
  client_token : Option PValue := none
  code : Option PValue := none
  execution_state : Option JobExecutionState := none
  message : Option PValue := none
  timestamp : Option Int := none

/-- `RejectedError.from_payload`. -/
def RejectedError.from_payload : PValue → Except Unit RejectedError
  | .dict es => do
    let ex ← match Payload.getTruthy es "executionState" with
      | some v => (JobExecutionState.from_payload v).map some
      | none => pure none
    let ts ← decodeTs es "timestamp"
    .ok { client_token := Payload.getTruthy es "clientToken"
          code := Payload.getTruthy es "code"
          execution_state := ex
          message := Payload.getTruthy es "message"
          timestamp := ts }
  | _ => .error ()

/-- `JobExecutionData`: the execution snapshot nested inside describe /
start-next responses and next-job-changed events. -/
structure JobExecutionData where
  execution_number : Option PValue := none
  job_document : Option PValue := none
  job_id : Option PValue := none
  last_updated_at : Option Int := none
  queued_at : Option Int := none
  started_at : Option Int := none
  status : Option PValue := none
  thing_name : Option PValue := none
  version_number : Option PValue := none

/-- `JobExecutionData.from_payload`. -/
def JobExecutionData.from_payload : PValue → Except Unit JobExecutionData
  | .dict es => do
    let lu ← decodeTs es "lastUpdatedAt"
    let qa ← decodeTs es "queuedAt"
    let sa ← decodeTs es "startedAt"
    .ok { execution_number := Payload.getTruthy es "executionNumber"
          job_document := Payload.getTruthy es "jobDocument"
          job_id := Payload.getTruthy es "jobId"
          last_updated_at := lu
          queued_at := qa
          started_at := sa
          status := Payload.getTruthy es "status"
          thing_name := Payload.getTruthy es "thingName"
          version_number := Payload.getTruthy es "versionNumber" }
  | _ => .error ()

/-- `DescribeJobExecutionResponse`, the payload class of the accepted-topic
subscription of `describe_job_execution`. -/
structure DescribeJobExecutionResponse where
  client_token : Option PValue := none
  execution : Option JobExecutionData := none
  timestamp : Option Int := none

/-- `DescribeJobExecutionResponse.from_payload`. -/
def DescribeJobExecutionResponse.from_payload : PValue → Except Unit DescribeJobExecutionResponse
  | .dict es => do
    let ex ← match Payload.getTruthy es "execution" with
      | some v => (JobExecutionData.from_payload v).map some
      | none => pure none
    let ts ← decodeTs es "timestamp"
    .ok { client_token := Payload.getTruthy es "clientToken"
          execution := ex
          timestamp := ts }
  | _ => .error ()

/-- `JobExecutionSummary`: executionNumber plus three timestamps. -/
structure JobExecutionSummary where
  execution_number : Option PValue := none
  last_updated_at : Option Int := none
  queued_at : Option Int := none
  started_at : Option Int := none

/-- `JobExecutionSummary.from_payload`. -/
def JobExecutionSummary.from_payload : PValue → Except Unit JobExecutionSummary
  | .dict es => do
    let lu ← decodeTs es "lastUpdatedAt"
    let qa ← decodeTs es "queuedAt"
    let sa ← decodeTs es "startedAt"
    .ok { execution_number := Payload.getTruthy es "executionNumber"
          last_updated_at := lu
          queued_at := qa
          started_at := sa }
  | _ => .error ()

/-- `JobExecutionsChangedJobs`: a list of summaries under the wire key
`JobExecutionState`. -/
structure JobExecutionsChangedJobs where
  job_execution_state : Option (List JobExecutionSummary) := none

/-- `JobExecutionsChangedJobs.from_payload`: the comprehension
`[JobExecutionSummary.from_payload(i) for i in val]` succeeds only when the
truthy `val` is a JSON array whose elements are objects. -/
def JobExecutionsChangedJobs.from_payload : PValue → Except Unit JobExecutionsChangedJobs
  | .dict es => do
    let js ← match Payload.getTruthy es "JobExecutionState" with
      | some (.list items) => (items.mapM JobExecutionSummary.from_payload).map some
      | some _ => .error ()
      | none => pure none
    .ok { job_execution_state := js }
  | _ => .error ()

/-- `JobExecutionsChangedEvent`, the payload class of the
`.../jobs/notify` streaming subscription. -/
structure JobExecutionsChangedEvent where
  jobs : Option JobExecutionsChangedJobs := none
  timestamp : Option Int := none

/-- `JobExecutionsChangedEvent.from_payload`. -/
def JobExecutionsChangedEvent.from_payload : PValue → Except Unit JobExecutionsChangedEvent
  | .dict es => do
    let js ← match Payload.getTruthy es "jobs" with
      | some v => (JobExecutionsChangedJobs.from_payload v).map some
      | none => pure none
    let ts ← decodeTs es "timestamp"
    .ok { jobs := js, timestamp := ts }
  | _ => .error ()

/-- `NextJobExecutionChangedEvent`, the payload class of the
`.../jobs/notify-next` streaming subscription. -/
structure NextJobExecutionChangedEvent where
  execution : Option JobExecutionData := none
  timestamp : Option Int := none

/-- `NextJobExecutionChangedEvent.from_payload`. -/
def NextJobExecutionChangedEvent.from_payload : PValue → Except Unit NextJobExecutionChangedEvent
  | .dict es => do
    let ex ← match Payload.getTruthy es "execution" with
      | some v => (JobExecutionData.from_payload v).map some
      | none => pure none
    let ts ← decodeTs es "timestamp"
    .ok { execution := ex, timestamp := ts }
  | _ => .error ()

/-! ## The pending outcome: `concurrent.futures.Future`

`_rpc_operation` settles its future with `set_result` (a decoded success
value) or `set_exception`.  The exception stored in the future is one of:
the decoded `RejectedError` (set when the handler's captured descriptor has
`is_error` true), a decode failure raised by `json.loads` /
`from_payload`, or the `InvalidStateError` that `set_result` /
`set_exception` themselves raise when the future is already done
(`concurrent.futures.Future` refuses to settle twice). -/

inductive RpcErr where
  | serviceError (r : RejectedError)
  | decodeError
  | invalidState

/-- State of a `concurrent.futures.Future`: pending until settled exactly
once with a result or an exception. -/
inductive FState (α : Type) where
  | pending
  | resolved (v : α)
  | rejected (e : RpcErr)

/-- `Future.set_result`: stores the result on a pending future and raises
`InvalidStateError` (modelled as `.error ()`) when the future is already
done. -/
def FState.set_result : FState α → α → Except Unit (FState α)
  | .pending, v => .ok (.resolved v)
  | _, _ => .error ()

/-- `Future.set_exception`: stores the exception on a pending future and
raises `InvalidStateError` when the future is already done. -/
def FState.set_exception : FState α → RpcErr → Except Unit (FState α)
  | .pending, e => .ok (.rejected e)
  | _, _ => .error ()

/-! ## The rpc response handler

`_rpc_operation` defines `on_response` inside `for sub in subscriptions:`
and registers one closure per subscription.  Python closures capture the
VARIABLE `sub`, not its value at definition time; the handlers only run
after the loop has finished, so every one of them reads the last element of
`subscriptions`.  For every rpc operation in this module that last element
is the rejected-topic descriptor: `payload_class = RejectedError`,
`is_error = True`.  The handler body is

    try:
        payload = json.loads(json_payload)
        result = sub.payload_class.from_payload(payload)
        if sub.is_error: future.set_exception(result)
        else:           future.set_result(result)
    except Exception as e:
        future.set_exception(e)

The model returns the new future state together with a flag that is true
when an exception escaped the handler into the mqtt dispatch path: that
happens exactly when the `except` block's own `set_exception` raises
`InvalidStateError` because the future is already done. -/

def on_response (f : FState α) (msg : JsonMsg) : FState α × Bool :=
  let tryBody : Except RpcErr (FState α) :=
    match msg with
    | none => .error .decodeError
    | some v =>
      match RejectedError.from_payload v with
      | .error () => .error .decodeError
      | .ok result =>
        match f.set_exception (.serviceError result) with
        | .ok f2 => .ok f2
        | .error () => .error .invalidState
  match tryBody with
  | .ok f2 => (f2, false)
  | .error e =>
    match f.set_exception e with
    | .ok f2 => (f2, false)
    | .error () => (f, true)

/-- Request topic of `describe_job_execution`:
`$aws/things/{thing_name}/jobs/{job_id}/get`. -/
def describe_request_topic (thing job : String) : String :=
  "$aws/things/" ++ thing ++ "/jobs/" ++ job ++ "/get"

/-- The two topics `describe_job_execution` subscribes to, in source
order: accepted (success descriptor) then rejected (error descriptor). -/
def describe_sub_topics (thing job : String) : List String :=
  ["$aws/things/" ++ thing ++ "/jobs/" ++ job ++ "/get/accepted",
   "$aws/things/" ++ thing ++ "/jobs/" ++ job ++ "/get/rejected"]

/-- The message handler `describe_job_execution` ends up registering for a
given topic.  Each subscribed topic gets its own `on_response` closure, but
all of them share the captured loop variable `sub` (see `on_response`), so
they are one and the same behavior. -/
def describe_handler_for (thing job t : String) :
    Option (FState DescribeJobExecutionResponse → JsonMsg →
      FState DescribeJobExecutionResponse × Bool) :=
  if t ∈ describe_sub_topics thing job then some on_response else none

/-! ## The subscribe-mode gate

`_subscribe_operation` counts subacks with the same pop-a-sentinel gate and,
when the counter empties, calls `future.set_result(None)`.  That call is
NOT wrapped in a try/except: were it ever to raise, the exception would
escape into the transport's dispatch path, so the model tracks an
`escaped` flag. -/

structure SubGateState where
  suback_counter : List Unit
  future : FState Unit
  escaped : Bool

/-- One invocation of the `on_suback` closure of `_subscribe_operation`. -/
def subStep (s : SubGateState) : SubGateState :=
  match s.suback_counter with
  | [] => s
  | _ :: rest =>
    if rest.isEmpty then
      match s.future.set_result () with
      | .ok f2 => ⟨rest, f2, s.escaped⟩
      | .error () => ⟨rest, s.future, true⟩
    else ⟨rest, s.future, s.escaped⟩

/-- The subscribe gate after `m` suback deliveries for an invocation with
`k` subscriptions. -/
def subRun (k : Nat) : Nat → SubGateState
  | 0 => ⟨List.replicate k (), .pending, false⟩
  | m + 1 => subStep (subRun k m)

/-! ## The streaming message handler

`_subscribe_operation` defines, per subscription,

    def callback_wrapper(topic, json_payload):
        try:
            payload = json.loads(json_payload)
            event = sub.payload_class.from_payload(payload)
            sub.callback(event)
        except:
            # cannot deliver payload, invoke callback with None
            sub.callback(None)

As in `on_response`, the closures share the loop variable `sub`; both
streaming operations of this module pass exactly one subscription, so the
shared variable is that subscription.  `decode` below models `json.loads`
plus `sub.payload_class.from_payload`; `cbRaises o` models whether the
caller's callback raises when invoked with `o` (`none` is Python `None`,
the undecodable marker).  The bare `except:` catches any failure of the
try block — a decode failure or a failure raised by the caller's callback
on the decoded event — and invokes the callback again with `None`; a
failure of THAT call is not caught and propagates out of the handler.  The
result is the ordered list of callback invocations and whether an
exception escaped. -/

def callback_wrapper (decode : JsonMsg → Except Unit ε) (cbRaises : Option ε → Bool)
    (msg : JsonMsg) : List (Option ε) × Bool :=
  match decode msg with
  | .ok ev =>
    if cbRaises (some ev) then ([some ev, none], cbRaises none)
    else ([some ev], false)
  | .error () => ([none], cbRaises none)

/-- The transport invokes the registered `callback_wrapper` once per
inbound message on the subscribed topic, for the lifetime of the
subscription; nothing in the module unsubscribes, so every message is
handled independently by the same wrapper. -/
def runStream (decode : JsonMsg → Except Unit ε) (cbRaises : Option ε → Bool)
    (msgs : List JsonMsg) : List (List (Option ε) × Bool) :=
  msgs.map (callback_wrapper decode cbRaises)

/-- Decode step of the `.../jobs/notify` streaming subscription:
`json.loads` (failing on non-JSON input) followed by
`JobExecutionsChangedEvent.from_payload`. -/
def jobs_changed_decode : JsonMsg → Except Unit JobExecutionsChangedEvent
  | none => .error ()
  | some v => JobExecutionsChangedEvent.from_payload v

/-- Decode step of the `.../jobs/notify-next` streaming subscription. -/
def next_job_decode : JsonMsg → Except Unit NextJobExecutionChangedEvent
  | none => .error ()
  | some v => NextJobExecutionChangedEvent.from_payload v

/-! ## Streaming facades

`get_job_executions_changed` / `get_next_job_execution_changed` first check
`if not handler.on_xxx: raise ValueError(...)` — the handler classes
initialize their callback attribute to `None`, and `None` is the only falsy
value a callback slot can hold (any function object is truthy) — then build
one `_SubscriptionInfo` and call `_subscribe_operation`, which subscribes
and returns a fresh pending future.  The model returns `Except` the raised
`ValueError` message, or the list of subscribed topics together with the
initial gate state: in the error case no transport interaction has
happened and no future exists, by construction.  `'{0.thing_name}'.format`
renders a `None` field as the string `"None"`. -/

def formatOptStr : Option String → String
  | some s => s
  | none => "None"

/-- `GetJobExecutionsChangedRequest`. -/
structure GetJobExecutionsChangedRequest where
  thing_name : Option String := none

/-- `GetNextJobExecutionChangedRequest`. -/
structure GetNextJobExecutionChangedRequest where
  thing_name : Option String := none

/-- `JobExecutionsChangedEventsHandler`: a single callback slot,
`None`-initialized; the callback itself is modelled by its raising
behavior, as in `callback_wrapper`. -/
structure JobExecutionsChangedEventsHandler where
  on_job_executions_changed : Option (Option JobExecutionsChangedEvent → Bool) := none

/-- `NextJobExecutionChangedEventsHandler`. -/
structure NextJobExecutionChangedEventsHandler where
  on_next_job_execution_changed : Option (Option NextJobExecutionChangedEvent → Bool) := none

/-- `IotJobsClient.get_job_executions_changed`. -/
def get_job_executions_changed (input : GetJobExecutionsChangedRequest)
    (handler : JobExecutionsChangedEventsHandler) :
    Except String (List String × SubGateState) :=
  match handler.on_job_executions_changed with
  | none => .error "handler.on_job_executions_changed is required"
  | some _ =>
    .ok (["$aws/things/" ++ formatOptStr input.thing_name ++ "/jobs/notify"],
      ⟨List.replicate 1 (), .pending, false⟩)

/-- `IotJobsClient.get_next_job_execution_changed`. -/
def get_next_job_execution_changed (input : GetNextJobExecutionChangedRequest)
    (handler : NextJobExecutionChangedEventsHandler) :
    Except String (List String × SubGateState) :=
  match handler.on_next_job_execution_changed with
  | none => .error "handler.on_next_job_execution_changed is required"
  | some _ =>
    .ok (["$aws/things/" ++ formatOptStr input.thing_name ++ "/jobs/notify-next"],
      ⟨List.replicate 1 (), .pending, false⟩)

/-! ## Client-token assignment

The first statements of `_rpc_operation` are

    if not input.client_token:
        input.client_token = str(uuid.uuid4())
    input_payload = input.to_payload()

mutating only the `client_token` attribute of the caller's input object.
`str(uuid.uuid4())` is a fresh 36-character string, modelled as an explicit
`fresh` parameter (theorems hypothesize it non-empty). -/

/-- Truthiness of an `Optional[str]` attribute: set and non-empty. -/
def optStrTruthy : Option String → Bool
  | some s => !(s == "")
  | none => false

/-- The client-token assignment of `_rpc_operation`, as applied to a
`DescribeJobExecutionRequest` input. -/
def describe_ensure_client_token (fresh : String) (input : DescribeJobExecutionRequest) :
    DescribeJobExecutionRequest :=
  if optStrTruthy input.client_token then input
  else { input with client_token := some fresh }

/-- The client-token assignment of `_rpc_operation`, as applied to an
`UpdateJobExecutionRequest` input. -/
def update_ensure_client_token (fresh : String) (input : UpdateJobExecutionRequest) :
    UpdateJobExecutionRequest :=
  if optStrTruthy input.client_token then input
  else { input with client_token := some fresh }

/-! ## Spec-modelled request decoders

The repository defines `to_payload` for request classes but no
`from_payload` (only response/event classes decode).  For the round-trip
claim the decoders below are modelled from the spec. -/

/-- Decode idiom for a string-typed request field (`val = payload.get(k)`;
`if val: new.field = val`), restricted to string-shaped wire values since
the model is typed; `to_payload` only ever writes the expected shape. -/
def decodeStrField (p : Payload) (k : String) : Option String :=
  match Payload.getTruthy p k with
  | some (.str s) => some s
  | _ => none

/-- Decode idiom for an int-typed request field. -/
def decodeIntField (p : Payload) (k : String) : Option Int :=
  match Payload.getTruthy p k with
  | some (.int n) => some n
  | _ => none

/-- Decode idiom for a bool-typed request field. -/
def decodeBoolField (p : Payload) (k : String) : Option Bool :=
  match Payload.getTruthy p k with
  | some (.bool b) => some b
  | _ => none

/-- Decode idiom for a string-dict-typed request field. -/
def decodeStrDictField (p : Payload) (k : String) : Option (List (String × String)) :=
  match Payload.getTruthy p k with
  | some (.dict es) => some (es.filterMap fun kv =>
      match kv.2 with
      | .str s => some (kv.1, s)
      | _ => none)
  | _ => none

/-- Modelled from the spec: `DescribeJobExecutionRequest` has no
`from_payload` in the source; this decoder follows section 4.1's contract
and the file's uniform generated decode idiom
(`val = payload.get(key)`; `if val: new.field = val`), reading exactly the
wire keys `to_payload` writes; `job_id` and `thing_name` are not wire
fields and stay unset. -/
def DescribeJobExecutionRequest.from_payload (payload : Payload) : DescribeJobExecutionRequest :=
  { client_token := decodeStrField payload "clientToken"
    execution_number := decodeIntField payload "executionNumber"
    include_job_document := decodeBoolField payload "includeJobDocument"
    job_id := none
    thing_name := none }

/-- Modelled from the spec: `UpdateJobExecutionRequest` has no
`from_payload` in the source; same decode idiom as
`DescribeJobExecutionRequest.from_payload`, over the seven wire keys its
`to_payload` writes. -/
def UpdateJobExecutionRequest.from_payload (payload : Payload) : UpdateJobExecutionRequest :=
  { client_token := decodeStrField payload "clientToken"
    execution_number := decodeIntField payload "executionNumber"
    expected_version := decodeIntField payload "expectedVersion"
    include_job_document := decodeBoolField payload "includeJobDocument"
    include_job_execution_state := decodeBoolField payload "includeJobExecutionState"
    job_id := none
    status := decodeStrField payload "status"
    status_details := decodeStrDictField payload "statusDetails"
    thing_name := none }

/-- The portion of a `DescribeJobExecutionRequest` that survives an
encode/decode round trip: payload-carried fields keep their value exactly
when it is truthy, topic-only fields are dropped. -/
def DescribeJobExecutionRequest.roundTripNorm (r : DescribeJobExecutionRequest) :
    DescribeJobExecutionRequest :=
  { client_token := r.client_token.filter (fun s => !(s == ""))
    execution_number := r.execution_number.filter (fun n => !(n == 0))
    include_job_document := r.include_job_document.filter (fun b => b)
    job_id := none
    thing_name := none }

/-- The portion of an `UpdateJobExecutionRequest` that survives an
encode/decode round trip. -/
def UpdateJobExecutionRequest.roundTripNorm (u : UpdateJobExecutionRequest) :
    UpdateJobExecutionRequest :=
  { client_token := u.client_token.filter (fun s => !(s == ""))
    execution_number := u.execution_number.filter (fun n => !(n == 0))
    expected_version := u.expected_version.filter (fun n => !(n == 0))
    include_job_document := u.include_job_document.filter (fun b => b)
    include_job_execution_state := u.include_job_execution_state.filter (fun b => b)
    job_id := none
    status := u.status.filter (fun s => !(s == ""))
    status_details := u.status_details.filter (fun d => !d.isEmpty)
    thing_name := none }

/-! ## Gate characterization lemmas -/

/-- Closed form of the rpc gate: after `m` suback deliveries the counter
holds `k - m` sentinels (truncated at zero, since the pop is guarded) and
the request has been published exactly once as soon as all `k`
acknowledgements are in — never earlier, and never for `k = 0`, where the
guard `if suback_counter:` is false from the start. -/
theorem rpcRun_eq (k m : Nat) :
    rpcRun k m = ⟨List.replicate (k - m) (), if m < k ∨ k = 0 then 0 else 1⟩ := by
  induction m with
  | zero =>
    rw [rpcRun, if_pos (by omega)]
    simp
  | succ m ih =>
    rw [rpcRun, ih]
    rcases Nat.lt_or_ge m k with hlt | hge
    · have h1 : k - m = (k - (m + 1)) + 1 := by omega
      rw [h1, List.replicate_succ, if_pos (Or.inl hlt)]
      by_cases hj : k - (m + 1) = 0
      · have h4 : ¬ (m + 1 < k ∨ k = 0) := by omega
        rw [hj, if_neg h4]
        simp [rpcStep]
      · have h4 : m + 1 < k ∨ k = 0 := by omega
        rw [if_pos h4]
        simp [rpcStep, List.isEmpty_iff, hj]
    · have h1 : k - m = 0 := by omega
      have h2 : k - (m + 1) = 0 := by omega
      have h3 : ¬ m < k := by omega
      have h4 : ¬ m + 1 < k := by omega
      rw [h1, h2]
      simp [rpcStep, h3, h4]

/-- Closed form of the subscribe gate: the counter drains exactly like the
rpc gate, the future resolves exactly when all `k ≥ 1` acknowledgements are
in, and the unguarded `future.set_result(None)` never hits an
already-settled future, so no exception ever escapes `on_suback`. -/
theorem subRun_eq (k m : Nat) :
    subRun k m =
      ⟨List.replicate (k - m) (), if m < k ∨ k = 0 then .pending else .resolved (), false⟩ := by
  induction m with
  | zero =>
    rw [subRun, if_pos (by omega)]
    simp
  | succ m ih =>
    rw [subRun, ih]
    rcases Nat.lt_or_ge m k with hlt | hge
    · have h1 : k - m = (k - (m + 1)) + 1 := by omega
      rw [h1, List.replicate_succ, if_pos (Or.inl hlt)]
      by_cases hj : k - (m + 1) = 0
      · have h4 : ¬ (m + 1 < k ∨ k = 0) := by omega
        rw [hj, if_neg h4]
        simp [subStep, FState.set_result]
      · have h4 : m + 1 < k ∨ k = 0 := by omega
        rw [if_pos h4]
        simp [subStep, List.isEmpty_iff, hj]
    · have h1 : k - m = 0 := by omega
      have h2 : k - (m + 1) = 0 := by omega
      have h3 : ¬ m < k := by omega
      have h4 : ¬ m + 1 < k := by omega
      rw [h1, h2]
      simp [subStep, h3, h4]

/-- Claim C2.  Ack-before-publish ordering: for an `_rpc_operation` invocation
with `k + 1 ≥ 1` subscriptions, after any number `m` of suback deliveries
the request has been published exactly once if `m ≥ k + 1` and not at all
while `m ≤ k` — publish never happens before every subscription of the
invocation has been acknowledged, and duplicate acknowledgements beyond
`k + 1` never publish again.  (The shared `on_suback` closure ignores
`packet_id`, so a run is fully described by the number of deliveries; any
arrival order of the individual acknowledgements is the same run.) -/
theorem ack_before_publish (k m : Nat) :
    (rpcRun (k + 1) m).publishCount = if m < k + 1 then 0 else 1 := by
  rw [rpcRun_eq]
  simp

/-- Claim C6.  Duplicate-ack guard, for both gate flavors: the sentinel counter
drains to `k - m` (the guarded pop never runs on an empty list, so it
never goes below zero), the completion fires at most once
(`publishCount ≤ 1`; the subscribe future is settled at most once and its
`set_result` never raises, `escaped = false`), and once all `k`
acknowledgements are in, every further `on_suback` invocation is a no-op
on the gate state. -/
theorem duplicate_ack_guard (k m j : Nat) :
    (rpcRun k m).suback_counter.length = k - m
    ∧ (rpcRun k m).publishCount ≤ 1
    ∧ rpcStep (rpcRun k (k + j)) = rpcRun k (k + j)
    ∧ (subRun k m).suback_counter.length = k - m
    ∧ (subRun k m).escaped = false
    ∧ subStep (subRun k (k + j)) = subRun k (k + j) := by
  refine ⟨?_, ?_, ?_, ?_, ?_, ?_⟩
  · rw [rpcRun_eq]
    simp
  · rw [rpcRun_eq]
    split <;> simp
  · rw [rpcRun_eq]
    have h : k - (k + j) = 0 := by omega
    rw [h]
    simp [rpcStep]
  · rw [subRun_eq]
    simp
  · rw [subRun_eq]
  · rw [subRun_eq]
    have h : k - (k + j) = 0 := by omega
    rw [h]
    simp [subStep]

/-- Claim C5 (code bug).  Zero-subscription edge case: with an empty
subscription list, `_rpc_operation` and `_subscribe_operation` build
`suback_counter = []` and their loop bodies never run, so `on_suback` is
never even registered with the transport; moreover the gate guard
`if suback_counter:` is false from the start, so even an arbitrary number
of `on_suback` invocations never publishes the request and never resolves
the subscribe future — completion does NOT fire immediately (or ever), the
future stays pending. -/
theorem zero_subscriptions_never_complete (m : Nat) :
    rpcRun 0 m = ⟨[], 0⟩ ∧ subRun 0 m = ⟨[], .pending, false⟩ := by
  rw [rpcRun_eq, subRun_eq]
  simp

/-! ## Settlement and routing of the rpc future -/

/-- Claim C1 (code bug).  Duplicate or late delivery to a settled future: once
the future returned by `_rpc_operation` is settled, every further inbound
message on any of the subscribed topics leaves the state — and hence the
value the caller observes from the first settling delivery — unchanged,
but it is NOT silently ignored: `set_exception` inside the `try` raises
`InvalidStateError` on the done future, and the `except` block's own
`future.set_exception(e)` raises `InvalidStateError` again, which escapes
the handler into the mqtt dispatch path (the returned flag is `true`).
The closed conjunct replays the scenario concretely: a first delivery
settles the pending future, the duplicate of the very same message then
escapes. -/
theorem settled_future_duplicate_delivery {α : Type} (v : α) (e : RpcErr) (msg : JsonMsg) :
    on_response (FState.resolved v) msg = (FState.resolved v, true)
    ∧ on_response (α := α) (FState.rejected e) msg = (FState.rejected e, true)
    ∧ on_response (α := DescribeJobExecutionResponse) .pending (some (.dict []))
        = (.rejected (.serviceError {}), false)
    ∧ on_response (α := DescribeJobExecutionResponse)
        (.rejected (.serviceError {})) (some (.dict []))
        = (.rejected (.serviceError {}), true) := by
  refine ⟨?_, ?_, rfl, rfl⟩ <;>
    (cases msg with
     | none => rfl
     | some p =>
       cases h : RejectedError.from_payload p with
       | ok r => simp [on_response, h, FState.set_exception]
       | error u => simp [on_response, h, FState.set_exception])

/-- Claim C3 (code bug).  Topic routing: `describe_job_execution` registers an
`on_response` closure for its accepted topic and one for its rejected
topic, but both closures read the shared loop variable `sub`, which after
the loop holds the LAST descriptor (`RejectedError`, `is_error = True`).
Consequently a message arriving on the Success-tagged accepted topic is
decoded as `RejectedError` and settles the pending future via
`future.set_exception` — Rejected, not Resolved with the decoded
`DescribeJobExecutionResponse` as the docstring promises. -/
theorem success_topic_message_rejects :
    describe_handler_for "MyThing" "job-1" "$aws/things/MyThing/jobs/job-1/get/accepted"
      = some on_response
    ∧ describe_handler_for "MyThing" "job-1" "$aws/things/MyThing/jobs/job-1/get/rejected"
      = some on_response
    ∧ on_response (α := DescribeJobExecutionResponse) .pending
        (some (.dict [("clientToken", .str "abc")]))
      = (.rejected (.serviceError { client_token := some (.str "abc") }), false) := by
  refine ⟨?_, ?_, rfl⟩ <;> rfl

/-! ## Sparse-encoding lemma kit -/

theorem Payload.get_append (p q : Payload) (k : String) :
    Payload.get (p ++ q) k = (Payload.get p k).or (Payload.get q k) := by
  induction p with
  | nil => simp [Payload.get]
  | cons kv rest ih =>
    rcases kv with ⟨kk, v⟩
    by_cases h : kk = k <;> simp [Payload.get, h, ih]

theorem get_strEntry_self (k : String) (v : Option String) :
    Payload.get (strEntry k v) k = (v.filter (fun s => !(s == ""))).map PValue.str := by
  rcases v with _ | s
  · rfl
  · by_cases h : s = "" <;> simp [strEntry, Payload.get, Option.filter_some, h]

theorem get_strEntry_ne (k kp : String) (v : Option String) (h : k ≠ kp) :
    Payload.get (strEntry k v) kp = none := by
  rcases v with _ | s
  · rfl
  · by_cases hs : s = "" <;> simp [strEntry, Payload.get, hs, h]

theorem get_intEntry_self (k : String) (v : Option Int) :
    Payload.get (intEntry k v) k = (v.filter (fun n => !(n == 0))).map PValue.int := by
  rcases v with _ | n
  · rfl
  · by_cases h : n = 0 <;> simp [intEntry, Payload.get, Option.filter_some, h]

theorem get_intEntry_ne (k kp : String) (v : Option Int) (h : k ≠ kp) :
    Payload.get (intEntry k v) kp = none := by
  rcases v with _ | n
  · rfl
  · by_cases hn : n = 0 <;> simp [intEntry, Payload.get, hn, h]

theorem get_boolEntry_self (k : String) (v : Option Bool) :
    Payload.get (boolEntry k v) k = (v.filter (fun b => b)).map PValue.bool := by
  rcases v with _ | b
  · rfl
  · cases b <;> simp [boolEntry, Payload.get, Option.filter_some]

theorem get_boolEntry_ne (k kp : String) (v : Option Bool) (h : k ≠ kp) :
    Payload.get (boolEntry k v) kp = none := by
  rcases v with _ | b
  · rfl
  · cases b <;> simp [boolEntry, Payload.get, h]

theorem get_dictEntry_self (k : String) (v : Option (List (String × String))) :
    Payload.get (dictEntry k v) k
      = (v.filter (fun d => !d.isEmpty)).map
          (fun d => PValue.dict (d.map fun kv => (kv.1, PValue.str kv.2))) := by
  rcases v with _ | d
  · rfl
  · by_cases h : d.isEmpty <;> simp [dictEntry, Payload.get, Option.filter_some, h]

theorem get_dictEntry_ne (k kp : String) (v : Option (List (String × String))) (h : k ≠ kp) :
    Payload.get (dictEntry k v) kp = none := by
  rcases v with _ | d
  · rfl
  · by_cases hd : d.isEmpty <;> simp [dictEntry, Payload.get, hd, h]

/-- Where each key of a `DescribeJobExecutionRequest` payload comes from:
the payload binds exactly the keys `clientToken`, `executionNumber` and
`includeJobDocument`, each present with the field's value precisely when
the field is set and truthy; in particular no key ever reflects the set
fields `job_id` or `thing_name`. -/
theorem describe_get (r : DescribeJobExecutionRequest) (k : String) :
    Payload.get r.to_payload k =
      if k = "clientToken" then (r.client_token.filter (fun s => !(s == ""))).map PValue.str
      else if k = "executionNumber" then
        (r.execution_number.filter (fun n => !(n == 0))).map PValue.int
      else if k = "includeJobDocument" then
        (r.include_job_document.filter (fun b => b)).map PValue.bool
      else none := by
  rw [DescribeJobExecutionRequest.to_payload, Payload.get_append, Payload.get_append]
  by_cases h1 : k = "clientToken"
  · subst h1
    rw [get_strEntry_self, get_intEntry_ne _ _ _ (by decide), get_boolEntry_ne _ _ _ (by decide)]
    simp [Option.or_none]
  · rw [get_strEntry_ne _ _ _ (fun hh => h1 hh.symm)]
    by_cases h2 : k = "executionNumber"
    · subst h2
      rw [get_intEntry_self, get_boolEntry_ne _ _ _ (by decide)]
      simp [Option.or_none, h1]
    · rw [get_intEntry_ne _ _ _ (fun hh => h2 hh.symm)]
      by_cases h3 : k = "includeJobDocument"
      · subst h3
        rw [get_boolEntry_self]
        simp [h1, h2]
      · rw [get_boolEntry_ne _ _ _ (fun hh => h3 hh.symm)]
        simp [h1, h2, h3]

/-- Where each key of an `UpdateJobExecutionRequest` payload comes from. -/
theorem update_get (u : UpdateJobExecutionRequest) (k : String) :
    Payload.get u.to_payload k =
      if k = "clientToken" then (u.client_token.filter (fun s => !(s == ""))).map PValue.str
      else if k = "executionNumber" then
        (u.execution_number.filter (fun n => !(n == 0))).map PValue.int
      else if k = "expectedVersion" then
        (u.expected_version.filter (fun n => !(n == 0))).map PValue.int
      else if k = "includeJobDocument" then
        (u.include_job_document.filter (fun b => b)).map PValue.bool
      else if k = "includeJobExecutionState" then
        (u.include_job_execution_state.filter (fun b => b)).map PValue.bool
      else if k = "status" then (u.status.filter (fun s => !(s == ""))).map PValue.str
      else if k = "statusDetails" then
        (u.status_details.filter (fun d => !d.isEmpty)).map
          (fun d => PValue.dict (d.map fun kv => (kv.1, PValue.str kv.2)))
      else none := by
  rw [UpdateJobExecutionRequest.to_payload, Payload.get_append, Payload.get_append,
    Payload.get_append, Payload.get_append, Payload.get_append, Payload.get_append]
  by_cases h1 : k = "clientToken"
  · subst h1
    rw [get_strEntry_self, get_intEntry_ne _ _ _ (by decide), get_intEntry_ne _ _ _ (by decide),
      get_boolEntry_ne _ _ _ (by decide), get_boolEntry_ne _ _ _ (by decide),
      get_strEntry_ne _ _ _ (by decide), get_dictEntry_ne _ _ _ (by decide)]
    simp [Option.or_none]
  · rw [get_strEntry_ne "clientToken" _ _ (fun hh => h1 hh.symm)]
    by_cases h2 : k = "executionNumber"
    · subst h2
      rw [get_intEntry_self, get_intEntry_ne _ _ _ (by decide),
        get_boolEntry_ne _ _ _ (by decide), get_boolEntry_ne _ _ _ (by decide),
        get_strEntry_ne _ _ _ (by decide), get_dictEntry_ne _ _ _ (by decide)]
      simp [Option.or_none, h1]
    · rw [get_intEntry_ne "executionNumber" _ _ (fun hh => h2 hh.symm)]
      by_cases h3 : k = "expectedVersion"
      · subst h3
        rw [get_intEntry_self, get_boolEntry_ne _ _ _ (by decide),
          get_boolEntry_ne _ _ _ (by decide), get_strEntry_ne _ _ _ (by decide),
          get_dictEntry_ne _ _ _ (by decide)]
        simp [Option.or_none, h1, h2]
      · rw [get_intEntry_ne "expectedVersion" _ _ (fun hh => h3 hh.symm)]
        by_cases h4 : k = "includeJobDocument"
        · subst h4
          rw [get_boolEntry_self, get_boolEntry_ne _ _ _ (by decide),
            get_strEntry_ne _ _ _ (by decide), get_dictEntry_ne _ _ _ (by decide)]
          simp [Option.or_none, h1, h2, h3]
        · rw [get_boolEntry_ne "includeJobDocument" _ _ (fun hh => h4 hh.symm)]
          by_cases h5 : k = "includeJobExecutionState"
          · subst h5
            rw [get_boolEntry_self, get_strEntry_ne _ _ _ (by decide),
              get_dictEntry_ne _ _ _ (by decide)]
            simp [Option.or_none, h1, h2, h3, h4]
          · rw [get_boolEntry_ne "includeJobExecutionState" _ _ (fun hh => h5 hh.symm)]
            by_cases h6 : k = "status"
            · subst h6
              rw [get_strEntry_self, get_dictEntry_ne _ _ _ (by decide)]
              simp [Option.or_none, h1, h2, h3, h4, h5]
            · rw [get_strEntry_ne "status" _ _ (fun hh => h6 hh.symm)]
              by_cases h7 : k = "statusDetails"
              · subst h7
                rw [get_dictEntry_self]
                simp [h1, h2, h3, h4, h5, h6]
              · rw [get_dictEntry_ne "statusDetails" _ _ (fun hh => h7 hh.symm)]
                simp [h1, h2, h3, h4, h5, h6, h7]

theorem getTruthy_of_get_mapped {β : Type} (p : Payload) (k : String) (v : Option β)
    (pred : β → Bool) (f : β → PValue)
    (h : Payload.get p k = (v.filter pred).map f)
    (ht : ∀ b, pred b = true → (f b).truthy = true) :
    Payload.getTruthy p k = (v.filter pred).map f := by
  rcases hv : v.filter pred with _ | b
  · rw [hv] at h
    simp [Payload.getTruthy, h]
  · rw [hv] at h
    have hb : pred b = true := (Option.filter_eq_some.mp hv).2
    simp [Payload.getTruthy, h, ht b hb]

theorem decodeStrField_eq (p : Payload) (k : String) (v : Option String)
    (h : Payload.get p k = (v.filter (fun s => !(s == ""))).map PValue.str) :
    decodeStrField p k = v.filter (fun s => !(s == "")) := by
  have hg := getTruthy_of_get_mapped p k v _ _ h
    (by intro b hb; simpa [PValue.truthy] using hb)
  rcases hv : v.filter (fun s => !(s == "")) with _ | s <;>
    rw [hv] at hg <;> simp [decodeStrField, hg]

theorem decodeIntField_eq (p : Payload) (k : String) (v : Option Int)
    (h : Payload.get p k = (v.filter (fun n => !(n == 0))).map PValue.int) :
    decodeIntField p k = v.filter (fun n => !(n == 0)) := by
  have hg := getTruthy_of_get_mapped p k v _ _ h
    (by intro b hb; simpa [PValue.truthy] using hb)
  rcases hv : v.filter (fun n => !(n == 0)) with _ | n <;>
    rw [hv] at hg <;> simp [decodeIntField, hg]

theorem decodeBoolField_eq (p : Payload) (k : String) (v : Option Bool)
    (h : Payload.get p k = (v.filter (fun b => b)).map PValue.bool) :
    decodeBoolField p k = v.filter (fun b => b) := by
  have hg := getTruthy_of_get_mapped p k v _ _ h
    (by intro b hb; simpa [PValue.truthy] using hb)
  rcases hv : v.filter (fun b => b) with _ | b <;>
    rw [hv] at hg <;> simp [decodeBoolField, hg]

theorem filterMap_str_roundtrip (d : List (String × String)) :
    List.filterMap
      ((fun kv : String × PValue =>
          match kv.2 with
          | PValue.str s => some (kv.1, s)
          | _ => none) ∘ fun kv : String × String => (kv.1, PValue.str kv.2)) d = d := by
  induction d with
  | nil => rfl
  | cons a t ih => simp [List.filterMap_cons, Function.comp, ih]

theorem decodeStrDictField_eq (p : Payload) (k : String) (v : Option (List (String × String)))
    (h : Payload.get p k = (v.filter (fun d => !d.isEmpty)).map
        (fun d => PValue.dict (d.map fun kv => (kv.1, PValue.str kv.2)))) :
    decodeStrDictField p k = v.filter (fun d => !d.isEmpty) := by
  have hg := getTruthy_of_get_mapped p k v _ _ h
    (by intro d hd; simpa [PValue.truthy] using hd)
  rcases hv : v.filter (fun d => !d.isEmpty) with _ | d
  · rw [hv] at hg
    simp [decodeStrDictField, hg, hv]
  · rw [hv] at hg
    simp only [decodeStrDictField, hg, Option.map_some', hv]
    rw [List.filterMap_map, filterMap_str_roundtrip]

/-- Decoding an encoded `DescribeJobExecutionRequest` recovers exactly its
truthy payload-carried fields. -/
theorem describe_round_trip (r : DescribeJobExecutionRequest) :
    DescribeJobExecutionRequest.from_payload r.to_payload = r.roundTripNorm := by
  have h1 := describe_get r "clientToken"
  have h2 := describe_get r "executionNumber"
  have h3 := describe_get r "includeJobDocument"
  rw [if_pos rfl] at h1
  rw [if_neg (by decide), if_pos rfl] at h2
  rw [if_neg (by decide), if_neg (by decide), if_pos rfl] at h3
  rw [DescribeJobExecutionRequest.from_payload, DescribeJobExecutionRequest.roundTripNorm,
    decodeStrField_eq _ _ _ h1, decodeIntField_eq _ _ _ h2, decodeBoolField_eq _ _ _ h3]

/-- Decoding an encoded `UpdateJobExecutionRequest` recovers exactly its
truthy payload-carried fields. -/
theorem update_round_trip (u : UpdateJobExecutionRequest) :
    UpdateJobExecutionRequest.from_payload u.to_payload = u.roundTripNorm := by
  have h1 := update_get u "clientToken"
  have h2 := update_get u "executionNumber"
  have h3 := update_get u "expectedVersion"
  have h4 := update_get u "includeJobDocument"
  have h5 := update_get u "includeJobExecutionState"
  have h6 := update_get u "status"
  have h7 := update_get u "statusDetails"
  rw [if_pos rfl] at h1
  rw [if_neg (by decide), if_pos rfl] at h2
  rw [if_neg (by decide), if_neg (by decide), if_pos rfl] at h3
  rw [if_neg (by decide), if_neg (by decide), if_neg (by decide), if_pos rfl] at h4
  rw [if_neg (by decide), if_neg (by decide), if_neg (by decide), if_neg (by decide),
    if_pos rfl] at h5
  rw [if_neg (by decide), if_neg (by decide), if_neg (by decide), if_neg (by decide),
    if_neg (by decide), if_pos rfl] at h6
  rw [if_neg (by decide), if_neg (by decide), if_neg (by decide), if_neg (by decide),
    if_neg (by decide), if_neg (by decide), if_pos rfl] at h7
  rw [UpdateJobExecutionRequest.from_payload, UpdateJobExecutionRequest.roundTripNorm,
    decodeStrField_eq _ _ _ h1, decodeIntField_eq _ _ _ h2, decodeIntField_eq _ _ _ h3,
    decodeBoolField_eq _ _ _ h4, decodeBoolField_eq _ _ _ h5, decodeStrField_eq _ _ _ h6,
    decodeStrDictField_eq _ _ _ h7]

/-! ## Claim theorems: sparse encoding, client token, streaming -/

/-- Input of the C4 counterexample: `execution_number` is set (to the
falsy value `0`) and `job_id` is set (to a non-empty string). -/
def c4_request : DescribeJobExecutionRequest :=
  { execution_number := some 0, job_id := some "job-1" }

/-- Claim C4 (counterexample).  `to_payload` does NOT contain a key for exactly
the set fields: for a request with `execution_number = 0` and
`job_id = "job-1"` both fields are set, yet the payload is empty — the
truthiness guard drops the set-but-falsy `executionNumber`, and `job_id`
(like `thing_name`) is a topic-only field that is never encoded; decoding
the encoded payload therefore loses both fields. -/
theorem sparse_encode_counterexample :
    c4_request.execution_number = some 0
    ∧ c4_request.job_id = some "job-1"
    ∧ c4_request.to_payload = []
    ∧ Payload.get c4_request.to_payload "executionNumber" = none
    ∧ Payload.get c4_request.to_payload "jobId" = none
    ∧ DescribeJobExecutionRequest.from_payload c4_request.to_payload = {} :=
  ⟨rfl, rfl, rfl, rfl, rfl, rfl⟩

/-- Claim C4 (amended).  Sparse encode round-trip, as the code implements it:
for `DescribeJobExecutionRequest` and `UpdateJobExecutionRequest`,
`to_payload` binds a key exactly for each payload-carried field
(`job_id` / `thing_name` are used only for topic construction and are
never encoded) whose value is set AND truthy (non-empty string, non-zero
int, `True`, non-empty dict), with the field's value; every other key is
absent.  Decoding such a payload with the matching `from_payload`
(modelled from the spec) yields exactly those truthy set fields with equal
values, and the remaining fields unset — set-but-falsy values do not
survive the round trip. -/
theorem sparse_encode_round_trip (r : DescribeJobExecutionRequest)
    (u : UpdateJobExecutionRequest) (k : String) :
    (Payload.get r.to_payload k =
      if k = "clientToken" then (r.client_token.filter (fun s => !(s == ""))).map PValue.str
      else if k = "executionNumber" then
        (r.execution_number.filter (fun n => !(n == 0))).map PValue.int
      else if k = "includeJobDocument" then
        (r.include_job_document.filter (fun b => b)).map PValue.bool
      else none)
    ∧ (Payload.get u.to_payload k =
      if k = "clientToken" then (u.client_token.filter (fun s => !(s == ""))).map PValue.str
      else if k = "executionNumber" then
        (u.execution_number.filter (fun n => !(n == 0))).map PValue.int
      else if k = "expectedVersion" then
        (u.expected_version.filter (fun n => !(n == 0))).map PValue.int
      else if k = "includeJobDocument" then
        (u.include_job_document.filter (fun b => b)).map PValue.bool
      else if k = "includeJobExecutionState" then
        (u.include_job_execution_state.filter (fun b => b)).map PValue.bool
      else if k = "status" then (u.status.filter (fun s => !(s == ""))).map PValue.str
      else if k = "statusDetails" then
        (u.status_details.filter (fun d => !d.isEmpty)).map
          (fun d => PValue.dict (d.map fun kv => (kv.1, PValue.str kv.2)))
      else none)
    ∧ DescribeJobExecutionRequest.from_payload r.to_payload = r.roundTripNorm
    ∧ UpdateJobExecutionRequest.from_payload u.to_payload = u.roundTripNorm :=
  ⟨describe_get r k, update_get u k, describe_round_trip r, update_round_trip u⟩

/-- Claim C8.  Client-token attachment: `_rpc_operation` first runs
`if not input.client_token: input.client_token = str(uuid.uuid4())`.  For
any input whose `client_token` is falsy (`None` or the empty string) the
field becomes the fresh token; a truthy token is kept verbatim; no other
field of the caller's input object is touched (the structure-update
equation fixes every other field); and the encoded payload of the updated
input always carries a `clientToken` key. -/
theorem client_token_attachment (fresh : String) (d : DescribeJobExecutionRequest)
    (u : UpdateJobExecutionRequest) (hf : fresh ≠ "") :
    describe_ensure_client_token fresh d
      = { d with client_token :=
            if optStrTruthy d.client_token then d.client_token else some fresh }
    ∧ update_ensure_client_token fresh u
      = { u with client_token :=
            if optStrTruthy u.client_token then u.client_token else some fresh }
    ∧ (Payload.get (describe_ensure_client_token fresh d).to_payload "clientToken").isSome = true
    ∧ (Payload.get (update_ensure_client_token fresh u).to_payload "clientToken").isSome
        = true := by
  refine ⟨?_, ?_, ?_, ?_⟩
  · by_cases h : optStrTruthy d.client_token <;> simp [describe_ensure_client_token, h]
  · by_cases h : optStrTruthy u.client_token <;> simp [update_ensure_client_token, h]
  · rw [describe_get, if_pos rfl]
    by_cases h : optStrTruthy d.client_token
    · rcases hd : d.client_token with _ | s
      · rw [hd] at h
        simp [optStrTruthy] at h
      · rw [hd] at h
        have hs : (!(s == "")) = true := by simpa [optStrTruthy] using h
        simp [describe_ensure_client_token, h, hd, Option.filter_some, hs]
    · simp [describe_ensure_client_token, h, Option.filter_some, hf]
  · rw [update_get, if_pos rfl]
    by_cases h : optStrTruthy u.client_token
    · rcases hu : u.client_token with _ | s
      · rw [hu] at h
        simp [optStrTruthy] at h
      · rw [hu] at h
        have hs : (!(s == "")) = true := by simpa [optStrTruthy] using h
        simp [update_ensure_client_token, h, hu, Option.filter_some, hs]
    · simp [update_ensure_client_token, h, Option.filter_some, hf]

/-- Witness for `client_token_attachment` at a concrete fresh token and
inputs with no client token set. -/
theorem client_token_attachment_witness :
    ("11111111-2222-3333-4444-555555555555" : String) ≠ ""
    ∧ (describe_ensure_client_token "11111111-2222-3333-4444-555555555555" {}
        = { client_token := some "11111111-2222-3333-4444-555555555555" }
      ∧ update_ensure_client_token "11111111-2222-3333-4444-555555555555" {}
        = { client_token := some "11111111-2222-3333-4444-555555555555" }
      ∧ (Payload.get (describe_ensure_client_token
            "11111111-2222-3333-4444-555555555555" {}).to_payload "clientToken").isSome = true
      ∧ (Payload.get (update_ensure_client_token
            "11111111-2222-3333-4444-555555555555" {}).to_payload "clientToken").isSome
          = true) :=
  ⟨by decide, client_token_attachment "11111111-2222-3333-4444-555555555555" {} {} (by decide)⟩

/-- Claim C7.  Streaming decode-failure isolation: when an inbound message of a
streaming subscription fails to parse or decode, `callback_wrapper`'s
bare `except:` still invokes the caller's callback, exactly once, with the
explicit `None` marker; provided that call returns normally, no exception
escapes the handler; and the handling of the remaining messages of the
stream is exactly as if the failing message had not occurred — the same
wrapper stays registered and later valid events are still decoded and
delivered. -/
theorem streaming_decode_failure_isolated {ε : Type}
    (decode : JsonMsg → Except Unit ε) (cbRaises : Option ε → Bool)
    (msg : JsonMsg) (rest : List JsonMsg)
    (hdec : decode msg = .error ()) (hcb : cbRaises none = false) :
    callback_wrapper decode cbRaises msg = ([none], false)
    ∧ runStream decode cbRaises (msg :: rest)
        = ([none], false) :: runStream decode cbRaises rest := by
  constructor
  · simp [callback_wrapper, hdec, hcb]
  · simp [runStream, callback_wrapper, hdec, hcb]

/-- Witness for `streaming_decode_failure_isolated` on the
`.../jobs/notify` subscription: an unparseable message followed by a
well-formed one, with a callback that never raises. -/
theorem streaming_decode_failure_isolated_witness :
    jobs_changed_decode none = Except.error ()
    ∧ (fun _ : Option JobExecutionsChangedEvent => false) none = false
    ∧ (callback_wrapper jobs_changed_decode (fun _ => false) none = ([none], false)
      ∧ runStream jobs_changed_decode (fun _ => false)
            (none :: [some (.dict [("timestamp", .int 1000)])])
          = ([none], false)
            :: runStream jobs_changed_decode (fun _ => false)
                 [some (.dict [("timestamp", .int 1000)])]) :=
  ⟨rfl, rfl,
    streaming_decode_failure_isolated jobs_changed_decode (fun _ => false) none
      [some (.dict [("timestamp", .int 1000)])] rfl rfl⟩

/-- Claim C9.  Missing streaming handler: both streaming facades check the
handler's callback attribute first and raise
`ValueError("handler.on_... is required")` synchronously when it is unset
(`None`-initialized by the handler classes); the error return carries no
subscription list and no future — no transport interaction has occurred
and no future was created.  With a callback present, the facade instead
subscribes to the single event topic and hands back a fresh pending
future. -/
theorem missing_streaming_handler_raises (i1 : GetJobExecutionsChangedRequest)
    (i2 : GetNextJobExecutionChangedRequest)
    (cb1 : Option JobExecutionsChangedEvent → Bool)
    (cb2 : Option NextJobExecutionChangedEvent → Bool) :
    get_job_executions_changed i1 {} = .error "handler.on_job_executions_changed is required"
    ∧ get_next_job_execution_changed i2 {}
        = .error "handler.on_next_job_execution_changed is required"
    ∧ get_job_executions_changed i1 { on_job_executions_changed := some cb1 }
        = .ok (["$aws/things/" ++ formatOptStr i1.thing_name ++ "/jobs/notify"],
            ⟨List.replicate 1 (), .pending, false⟩)
    ∧ get_next_job_execution_changed i2 { on_next_job_execution_changed := some cb2 }
        = .ok (["$aws/things/" ++ formatOptStr i2.thing_name ++ "/jobs/notify-next"],
            ⟨List.replicate 1 (), .pending, false⟩) :=
  ⟨rfl, rfl, rfl, rfl⟩

/-- Claim C10.  A raising caller callback in streaming mode: when the message
decodes fine but the caller's callback raises on the decoded event, the
bare `except:` catches that failure and invokes the SAME callback a second
time, now with the `None` undecodable marker — so the callback runs twice
for the one message — and, provided the second call returns normally, no
exception propagates out of the handler into the transport dispatch
path. -/
theorem streaming_raising_callback_called_twice {ε : Type}
    (decode : JsonMsg → Except Unit ε) (cbRaises : Option ε → Bool)
    (msg : JsonMsg) (ev : ε)
    (hdec : decode msg = .ok ev) (h1 : cbRaises (some ev) = true)
    (h2 : cbRaises none = false) :
    callback_wrapper decode cbRaises msg = ([some ev, none], false) := by
  simp [callback_wrapper, hdec, h1, h2]

/-- Witness for `streaming_raising_callback_called_twice`: a well-formed
empty event object and a callback that raises exactly on decoded events. -/
theorem streaming_raising_callback_called_twice_witness :
    jobs_changed_decode (some (.dict [])) = Except.ok ({} : JobExecutionsChangedEvent)
    ∧ (fun o : Option JobExecutionsChangedEvent => o.isSome) (some {}) = true
    ∧ (fun o : Option JobExecutionsChangedEvent => o.isSome) none = false
    ∧ callback_wrapper jobs_changed_decode (fun o => o.isSome) (some (.dict []))
        = ([some {}, none], false) :=
  ⟨rfl, rfl, rfl,
    streaming_raising_callback_called_twice jobs_changed_decode (fun o => o.isSome)
      (some (.dict [])) {} rfl rfl rfl⟩

end IotJobs
